import Mathlib

set_option maxRecDepth 100000

/-!
# Verification of the video-recipe extraction pipeline

Shallow embedding of `src/video_recipe.py`: the platform detector
(`detect_platform`), the video downloader with its remote-service fallback
(`download_video`), the frame sampler (`extract_frames`), the AI-response
parser (`parse_recipe_response`), and the HTTP orchestrator (`analyze_video`).

External effects (the yt-dlp library call, the Apify remote service, cv2
video decoding, the Gemini backend, Flask request decoding) are passed in as
explicit outcome parameters; everything the Python functions themselves
compute — control flow, string handling, default filling, error mapping — is
embedded faithfully.  Machine floats returned by cv2 (`fps`) are modelled as
rationals; JSON numbers are modelled as integers (the pipeline's canonical
recipe shape only uses integers; non-integer numerals make the embedded JSON
decoder fail, which is outside every claim's inputs).
-/

namespace VideoRecipe

/-! ## Character and string primitives (ASCII model of Python `str`) -/

/-- The opening curly-brace character. -/
def braceOpen : Char := Char.ofNat 123

/-- The closing curly-brace character. -/
def braceClose : Char := Char.ofNat 125

/-- The backtick character. -/
def backtick : Char := Char.ofNat 96

/-- ASCII lowercase of one character, as Python `str.lower` acts on ASCII. -/
def lowerChar (c : Char) : Char :=
  if 'A' ≤ c ∧ c ≤ 'Z' then Char.ofNat (c.toNat + 32) else c

/-- Lowercase a character list. -/
def lowerList (s : List Char) : List Char := s.map lowerChar

/-- `listIsPrefix pat s` holds when `pat` is an initial segment of `s`. -/
def listIsPrefix : List Char → List Char → Bool
  | [], _ => true
  | _ :: _, [] => false
  | a :: as, b :: bs => a = b && listIsPrefix as bs

/-- `containsSub pat s`: Python's substring test `pat in s`. -/
def containsSub (pat : List Char) : List Char → Bool
  | [] => pat.isEmpty
  | c :: t => listIsPrefix pat (c :: t) || containsSub pat t

/-- Case-insensitive substring test on strings (the pattern is given
already lowercase, as in the source). -/
def containsLower (s pat : String) : Bool :=
  containsSub pat.toList (lowerList s.toList)

/-! ## Platform detector (`detect_platform`) -/

/-- Embeds `detect_platform`: lowercase the URL, then test the four host
fragments in order: youtube, instagram, tiktok, otherwise unknown. -/
def detect_platform (url : String) : String :=
  if containsLower url "youtube.com" || containsLower url "youtu.be" then
    "youtube"
  else if containsLower url "instagram.com" then "instagram"
  else if containsLower url "tiktok.com" then "tiktok"
  else "unknown"

/-! ## Video downloader (`download_video`)

The yt-dlp attempt and the Apify fallback are external calls; each is passed
in as an `Except String String` (error message raised, or resolved local
file path).  The Python function's own control flow — the `yt_dlp_error`
truthiness guards, the platform gate on the fallback, the combined error
message, and the implicit `None` return when every guard fails — is
embedded exactly.  The trace records how many times each external call
was made. -/

/-- Outcome of a Python call: a returned value (possibly `None`) or a
raised exception carrying its message. -/
inductive PyOutcome where
  | ret (v : Option String)
  | raise (msg : String)
deriving DecidableEq, Repr

/-- Trace of one `download_video` run: number of primary (yt-dlp) attempts,
number of fallback (Apify) attempts, and the Python-level outcome. -/
structure DlTrace where
  primaryCalls : Nat
  fallbackCalls : Nat
  outcome : PyOutcome
deriving DecidableEq, Repr

/-- The platforms for which the Apify fallback is attempted. -/
def supportedPlatforms : List String := ["youtube", "instagram", "tiktok"]

/-- Embeds `download_video`.  `primary` is the outcome of the yt-dlp
attempt (`.ok path` stands for the resolved output file after the
extension-probing step; `.error e` for a raised exception with message
`e`, including `"yt-dlp not installed"` for `ImportError`).  `fallback`
is the outcome of the `download_with_apify` call. -/
def download_video (url : String) (primary : Except String String)
    (fallback : Except String String) : DlTrace :=
  let platform := detect_platform url
  match primary with
  | .ok path => ⟨1, 0, .ret (some path)⟩
  | .error e =>
    if e != "" && supportedPlatforms.contains platform then
      match fallback with
      | .ok p => ⟨1, 1, .ret (some p)⟩
      | .error ae => ⟨1, 1, .raise ("yt-dlp: " ++ e ++ " | Apify: " ++ ae)⟩
    else if e != "" then ⟨1, 0, .raise ("Error downloading video: " ++ e)⟩
    else ⟨1, 0, .ret none⟩

/-! ## Frame sampler (`extract_frames`)

The cv2 capture is modelled by three parameters: whether the capture
opened (`openedOk`), the reported frame rate (`fps`, a rational standing
for the cv2 double), and the stream of decodable frames (`video`, a list:
`cap.read()` yields them in order, then reports failure).  The
BGR-to-RGB conversion plus thumbnail downscale applied to each kept frame
is the parameter `conv`. -/

/-- The fps actually used: the reported rate, or the 30 fps default when
the reported rate is non-positive. -/
def effectiveFps (fps : ℚ) : ℚ := if fps ≤ 0 then 30 else fps

/-- `frame_interval = int(fps * interval_seconds)` from the source:
Python `int()` truncates toward zero, which on this non-negative product
is the floor. -/
def frameStride (fps : ℚ) (interval_seconds : ℕ) : ℕ :=
  (Rat.floor (effectiveFps fps * (interval_seconds : ℚ))).toNat

/-- Message of the Python exception raised by `k % 0`. -/
def zeroDivMsg : String := "ZeroDivisionError: integer division or modulo by zero"

/-- The `while len(frames) < max_frames` loop of `extract_frames`:
`count` is `frame_count`, `acc` holds kept frames in reverse.  A zero
stride raises `ZeroDivisionError` at the first `frame_count % frame_interval`,
i.e. as soon as one frame has been read. -/
def framesLoop (conv : α → β) (fi maxF : ℕ) (video : List α) (count : ℕ)
    (acc : List β) : Except String (List β) :=
  if maxF ≤ acc.length then .ok acc.reverse
  else
    match video with
    | [] => .ok acc.reverse
    | f :: rest =>
      if fi = 0 then .error zeroDivMsg
      else if count % fi = 0 then
        framesLoop conv fi maxF rest (count + 1) (conv f :: acc)
      else framesLoop conv fi maxF rest (count + 1) acc

/-- Embeds `extract_frames`: fail when the capture cannot be opened,
default a non-positive fps to 30, compute the stride, then walk the
frames keeping every stride-th one up to 30 frames. -/
def extract_frames (conv : α → β) (path : String) (openedOk : Bool) (fps : ℚ)
    (video : List α) (interval_seconds : ℕ := 2) : Except String (List β) :=
  if !openedOk then .error ("Cannot open video: " ++ path)
  else framesLoop conv (frameStride fps interval_seconds) 30 video 0 []

/-! ## JSON values and `json.loads`

JSON values as decoded by Python's `json.loads`, with objects as
insertion-ordered key/value lists (Python dicts preserve insertion order;
a duplicate key keeps its first position and its last value).  Numbers are
modelled as integers: on a numeral with a fraction or exponent the embedded
decoder fails where Python would produce a float — floating point is outside
this model, and every recipe field in the pipeline is integral. -/

/-- A decoded JSON value. -/
inductive Json where
  | null
  | bool (b : Bool)
  | num (n : Int)
  | str (s : String)
  | arr (elems : List Json)
  | obj (fields : List (String × Json))
deriving Repr

/-- JSON insignificant whitespace (space, tab, newline, carriage return). -/
def jsonWs (c : Char) : Bool :=
  c = ' ' || c = '\t' || c = '\n' || c = '\r'

/-- Drop leading JSON whitespace. -/
def skipWs (s : List Char) : List Char := s.dropWhile jsonWs

/-- Value of one hexadecimal digit. -/
def hexVal (c : Char) : Option Nat :=
  if '0' ≤ c ∧ c ≤ '9' then some (c.toNat - 48)
  else if 'a' ≤ c ∧ c ≤ 'f' then some (c.toNat - 87)
  else if 'A' ≤ c ∧ c ≤ 'F' then some (c.toNat - 55)
  else none

/-- Body of a JSON string, after the opening quote: returns the decoded
characters and the input remaining after the closing quote.  Handles the
JSON escapes; rejects unescaped control characters as Python's strict
decoder does. -/
def parseStringBody : List Char → Option (List Char × List Char)
  | [] => none
  | '"' :: rest => some ([], rest)
  | '\\' :: 'u' :: h1 :: h2 :: h3 :: h4 :: rest => do
    let v1 ← hexVal h1
    let v2 ← hexVal h2
    let v3 ← hexVal h3
    let v4 ← hexVal h4
    let (cs, r) ← parseStringBody rest
    pure (Char.ofNat (((v1 * 16 + v2) * 16 + v3) * 16 + v4) :: cs, r)
  | '\\' :: e :: rest => do
    let c ←
      if e = '"' then some '"'
      else if e = '\\' then some '\\'
      else if e = '/' then some '/'
      else if e = 'b' then some (Char.ofNat 8)
      else if e = 'f' then some (Char.ofNat 12)
      else if e = 'n' then some '\n'
      else if e = 'r' then some '\r'
      else if e = 't' then some '\t'
      else none
    let (cs, r) ← parseStringBody rest
    pure (c :: cs, r)
  | c :: rest =>
    if c.toNat < 32 then none
    else do
      let (cs, r) ← parseStringBody rest
      pure (c :: cs, r)

/-- Digits to their decimal value. -/
def digitsToNat (ds : List Char) : Nat :=
  ds.foldl (fun a c => a * 10 + (c.toNat - 48)) 0

/-- A JSON integer numeral: optional minus, digits with no leading zero.
A following `.`, `e` or `E` (a float numeral) is rejected by this model. -/
def parseNumber (s : List Char) : Option (Int × List Char) :=
  let (neg, s1) : Bool × List Char :=
    match s with
    | c :: t => if c = '-' then (true, t) else (false, s)
    | [] => (false, s)
  let ds := s1.takeWhile Char.isDigit
  let rest := s1.dropWhile Char.isDigit
  if ds.isEmpty then none
  else if ds.length > 1 ∧ ds.headD ' ' = '0' then none
  else
    let n : Int := (digitsToNat ds : Nat)
    let val := if neg then -n else n
    match rest with
    | c :: _ => if c = '.' ∨ c = 'e' ∨ c = 'E' then none else some (val, rest)
    | [] => some (val, rest)

/-- Insert a key/value pair as Python dict assignment does: a duplicate key
keeps its original position and takes the new value; a new key goes last. -/
def objInsert (o : List (String × Json)) (k : String) (v : Json) :
    List (String × Json) :=
  match o with
  | [] => [(k, v)]
  | (k', v') :: t => if k' = k then (k', v) :: t else (k', v') :: objInsert t k v

mutual

/-- One JSON value, by recursive descent with fuel. -/
def parseVal : Nat → List Char → Option (Json × List Char)
  | 0, _ => none
  | fuel + 1, s =>
    match skipWs s with
    | [] => none
    | c :: rest =>
      if c = braceOpen then
        match skipWs rest with
        | [] => none
        | d :: t' =>
          if d = braceClose then some (.obj [], t')
          else parseObjItems fuel (d :: t') []
      else if c = '[' then
        match skipWs rest with
        | [] => none
        | d :: t' =>
          if d = ']' then some (.arr [], t')
          else parseArrItems fuel (d :: t') []
      else if c = '"' then
        (parseStringBody rest).map (fun p => (.str ⟨p.1⟩, p.2))
      else if c = 't' then
        if listIsPrefix "rue".toList rest then some (.bool true, rest.drop 3)
        else none
      else if c = 'f' then
        if listIsPrefix "alse".toList rest then some (.bool false, rest.drop 4)
        else none
      else if c = 'n' then
        if listIsPrefix "ull".toList rest then some (.null, rest.drop 3)
        else none
      else (parseNumber (c :: rest)).map (fun p => (.num p.1, p.2))

/-- Comma-separated array elements up to `]`. -/
def parseArrItems : Nat → List Char → List Json → Option (Json × List Char)
  | 0, _, _ => none
  | fuel + 1, s, acc => do
    let (v, r) ← parseVal fuel s
    match skipWs r with
    | ',' :: r' => parseArrItems fuel r' (v :: acc)
    | c :: r' => if c = ']' then some (.arr (v :: acc).reverse, r') else none
    | [] => none

/-- Comma-separated `"key": value` members up to the closing brace. -/
def parseObjItems : Nat → List Char → List (String × Json) →
    Option (Json × List Char)
  | 0, _, _ => none
  | fuel + 1, s, acc =>
    match skipWs s with
    | '"' :: rest => do
      let (kcs, r) ← parseStringBody rest
      match skipWs r with
      | ':' :: r' => do
        let (v, r2) ← parseVal fuel r'
        let acc' := objInsert acc ⟨kcs⟩ v
        match skipWs r2 with
        | ',' :: r3 => parseObjItems fuel r3 acc'
        | d :: r3 => if d = braceClose then some (.obj acc', r3) else none
        | [] => none
      | _ => none
    | _ => none

end

/-- `json.loads`: parse one value and require only whitespace after it. -/
def jsonParse (s : String) : Option Json :=
  let cs := s.toList
  match parseVal (3 * cs.length + 16) cs with
  | some (v, r) => if (skipWs r).isEmpty then some v else none
  | none => none

/-! ## Response parser (`parse_recipe_response`)

The two regex extraction attempts are embedded directly: the fenced
search finds the first triple-backtick, optionally consumes a literal
`json` tag, and takes the (lazily shortest) text up to the next
triple-backtick, stripped; the raw search takes the greedy span from the
first opening brace to the last closing brace.  These reproduce the
leftmost-match semantics of `re.search` for the two patterns in the
source. -/

/-- Python whitespace as used by `str.strip` (ASCII). -/
def pySpace (c : Char) : Bool :=
  c = ' ' || c = '\t' || c = '\n' || c = '\r' || c = Char.ofNat 11 || c = Char.ofNat 12

/-- Python `str.strip()`. -/
def pyStrip (s : List Char) : List Char :=
  ((s.dropWhile pySpace).reverse.dropWhile pySpace).reverse

/-- Does the list start with three backticks? -/
def startsFence (s : List Char) : Bool :=
  listIsPrefix [backtick, backtick, backtick] s

/-- The suffix following the first triple-backtick, if any. -/
def afterFirstFence : List Char → Option (List Char)
  | [] => none
  | c :: t =>
    if startsFence (c :: t) then some (t.drop 2) else afterFirstFence t

/-- Split at the first triple-backtick: the text before it and the suffix
after it. -/
def upToFence : List Char → Option (List Char × List Char)
  | [] => none
  | c :: t =>
    if startsFence (c :: t) then some ([], t.drop 2)
    else (upToFence t).map (fun p => (c :: p.1, p.2))

/-- The fenced extraction: `re.search` of a triple-backtick block with an
optional `json` tag, then `.strip()` of the captured group. -/
def extractFenced (text : String) : Option String := do
  let after ← afterFirstFence text.toList
  let after := if listIsPrefix "json".toList after then after.drop 4 else after
  let (content, _) ← upToFence after
  pure ⟨pyStrip content⟩

/-- The raw extraction: the greedy span from the first opening brace to
the last closing brace, when both exist in that order. -/
def extractRawSpan (text : String) : Option String :=
  let t := text.toList.dropWhile (fun c => c ≠ braceOpen)
  match t with
  | [] => none
  | _ :: _ =>
    let r := t.reverse.dropWhile (fun c => c ≠ braceClose)
    match r with
    | [] => none
    | _ :: _ => some ⟨r.reverse⟩

/-- The JSON candidate `json_str`: the fenced block if one matches,
otherwise the raw brace span, otherwise nothing. -/
def extractCandidate (text : String) : Option String :=
  match extractFenced text with
  | some s => some s
  | none => extractRawSpan text

/-- Python `text[:200]` (by code points). -/
def take200 (s : String) : String := ⟨s.toList.take 200⟩

/-- Fields of the synthesized minimal draft returned when no JSON
candidate exists or when decoding fails, exactly as the dict literal in
the source. -/
def fallbackFields (text : String) : List (String × Json) :=
  [("title", .str "Recipe from Video"),
        ("description", .str (take200 text)),
        ("prepTime", .num 15),
        ("cookTime", .num 30),
        ("servings", .num 4),
        ("difficulty", .str "Medium"),
        ("ingredients", .arr []),
        ("steps", .arr [.str text]),
        ("equipment", .arr []),
        ("tips", .arr []),
        ("nutritionPerServing",
          .obj [("calories", .num 0), ("protein", .num 0),
                ("carbs", .num 0), ("fat", .num 0)]),
        ("tags", .arr []),
        ("rawResponse", .str text)]

/-- The synthesized minimal draft as a JSON object. -/
def fallbackDraft (text : String) : Json := .obj (fallbackFields text)

/-- The twelve `setdefault` calls of the source, in their order. -/
def canonicalDefaults : List (String × Json) :=
  [("title", .str "Recipe from Video"),
   ("description", .str ""),
   ("prepTime", .num 15),
   ("cookTime", .num 30),
   ("servings", .num 4),
   ("difficulty", .str "Medium"),
   ("ingredients", .arr []),
   ("steps", .arr []),
   ("equipment", .arr []),
   ("tips", .arr []),
   ("nutritionPerServing",
     .obj [("calories", .num 0), ("protein", .num 0),
           ("carbs", .num 0), ("fat", .num 0)]),
   ("tags", .arr [])]

/-- Does the object carry the key? -/
def hasKey (o : List (String × Json)) (k : String) : Bool :=
  o.any (fun p => p.1 = k)

/-- Python `dict.setdefault`: keep the entry if the key is present
(whatever its value, `None` included), else append the default last. -/
def setdefault (o : List (String × Json)) (k : String) (v : Json) :
    List (String × Json) :=
  if hasKey o k then o else o ++ [(k, v)]

/-- The `recipe.setdefault(...)` sequence applied to a decoded object. -/
def applyDefaults (o : List (String × Json)) : List (String × Json) :=
  canonicalDefaults.foldl (fun acc kv => setdefault acc kv.1 kv.2) o

/-- Embeds `parse_recipe_response`.  A decoded candidate that is not a
JSON object makes the Python code call `.setdefault` on a non-dict,
raising `AttributeError` (uncaught: only `json.JSONDecodeError` is
handled); this is the `.error` case. -/
def parse_recipe_response (text : String) : Except String Json :=
  match extractCandidate text with
  | none => .ok (fallbackDraft text)
  | some cand =>
    match jsonParse cand with
    | none => .ok (fallbackDraft text)
    | some (Json.obj o) => .ok (Json.obj (applyDefaults o))
    | some _ => .error "AttributeError"

/-! ## Request orchestrator (`analyze_video`)

The Flask handler, with its nested try/except blocks.  External outcomes
are parameters: whether a JSON body with a `url` key arrived, the result
of `get_gemini_client` (a raised `ValueError` when the API key is
missing), the outcomes of the yt-dlp and Apify calls (fed through the
embedded `download_video`), the frame-extraction outcome for the
`frames` method, and the AI call's raw text outcome.  The response is an
HTTP status paired with a body that is either `{error: msg}` or
`{success: true, recipe}` — the handler never builds any other body. -/

/-- A Flask response body from this handler. -/
inductive RespBody where
  | err (msg : String)
  | success (recipe : Json)
deriving Repr

/-- A raised Python exception, distinguishing `ValueError` (caught by the
handler's dedicated clause) from everything else. -/
structure PyExc where
  isValueError : Bool
  msg : String
deriving DecidableEq, Repr

/-- The rate-limit test of the inner AI except clause:
`"429" in error_msg or "quota" in error_msg.lower()`. -/
def rateLimited (msg : String) : Bool :=
  containsSub "429".toList msg.toList ||
    containsSub "quota".toList (lowerList msg.toList)

/-- Response mapped from an exception escaping the analysis block. -/
def aiFailureResp (msg : String) : Nat × RespBody :=
  if rateLimited msg then
    (429, .err "Rate limit exceeded. Please try again later.")
  else (500, .err ("Failed to analyze video: " ++ msg))

/-- The AI-analysis stage: the model call's raw text outcome fed through
`parse_recipe_response`; any exception (from the backend call or from the
parser itself) hits the inner except clause. -/
def runAiStage (aiText : Except String String) : Nat × RespBody :=
  match aiText with
  | .error e => aiFailureResp e
  | .ok txt =>
    match parse_recipe_response txt with
    | .error pe => aiFailureResp pe
    | .ok recipe => (200, .success recipe)

/-- Embeds the `/analyze` handler `analyze_video`. -/
def analyze_video (hasBody hasUrl : Bool) (clientInit : Except PyExc Unit)
    (url method : String) (primary fallback : Except String String)
    (frames : Except String (List Nat)) (aiText : Except String String) :
    Nat × RespBody :=
  if !hasBody || !hasUrl then (400, .err "Video URL is required")
  else
    match clientInit with
    | .error e =>
      if e.isValueError then (400, .err e.msg)
      else (500, .err "An unexpected error occurred")
    | .ok _ =>
      match (download_video url primary fallback).outcome with
      | .raise e => (400, .err ("Failed to download video: " ++ e))
      | .ret _path =>
        if method = "frames" then
          match frames with
          | .error fe => aiFailureResp fe
          | .ok [] => (400, .err "Could not extract frames from video")
          | .ok (_ :: _) => runAiStage aiText
        else runAiStage aiText

/-! ## Helper lemmas -/

theorem listIsPrefix_append_self (p r : List Char) :
    listIsPrefix p (p ++ r) = true := by
  induction p with
  | nil => rfl
  | cons a as ih => simp [listIsPrefix, ih]

/-- A list that literally contains the pattern passes the substring test. -/
theorem containsSub_of_middle (p l r : List Char) :
    containsSub p (l ++ (p ++ r)) = true := by
  induction l with
  | nil =>
    cases p with
    | nil =>
      cases r with
      | nil => rfl
      | cons c t => simp [containsSub, listIsPrefix]
    | cons a as =>
      have hp := listIsPrefix_append_self (a :: as) r
      simp only [List.cons_append] at hp
      simp [containsSub, hp]
  | cons c t ih =>
    simp only [List.cons_append]
    rw [containsSub]
    simp [ih]

theorem framesLoop_length_le {α β : Type} (conv : α → β) (fi maxF : ℕ) :
    ∀ (video : List α) (count : ℕ) (acc : List β), acc.length ≤ maxF →
      ∀ l, framesLoop conv fi maxF video count acc = Except.ok l →
        l.length ≤ maxF := by
  intro video
  induction video with
  | nil =>
    intro count acc hacc l h
    rw [framesLoop] at h
    split at h <;> (injection h with h'; subst h'; simpa using hacc)
  | cons f rest ih =>
    intro count acc hacc l h
    rw [framesLoop] at h
    split at h
    · injection h with h'; subst h'; simpa using hacc
    · rename_i hlt
      split at h
      · exact absurd h (by simp)
      · split at h
        · exact ih (count + 1) (conv f :: acc) (by simpa using Nat.lt_of_not_le hlt) l h
        · exact ih (count + 1) acc (Nat.le_of_lt (Nat.lt_of_not_le hlt)) l h

theorem framesLoop_isOk {α β : Type} (conv : α → β) (fi maxF : ℕ)
    (hfi : fi ≠ 0) :
    ∀ (video : List α) (count : ℕ) (acc : List β),
      ∃ l, framesLoop conv fi maxF video count acc = Except.ok l := by
  intro video
  induction video with
  | nil =>
    intro count acc
    rw [framesLoop]
    split
    · exact ⟨acc.reverse, rfl⟩
    · exact ⟨acc.reverse, rfl⟩
  | cons f rest ih =>
    intro count acc
    rw [framesLoop]
    split
    · exact ⟨acc.reverse, rfl⟩
    · split
      · exact ih (count + 1) (conv f :: acc)
      · exact ih (count + 1) acc


theorem setdefault_of_hasKey (o : List (String × Json)) (k : String) (v : Json)
    (h : hasKey o k = true) : setdefault o k v = o := by
  simp [setdefault, h]

theorem hasKey_setdefault_self (o : List (String × Json)) (k : String)
    (v : Json) : hasKey (setdefault o k v) k = true := by
  by_cases h : hasKey o k = true
  · rw [setdefault, if_pos h]; exact h
  · rw [setdefault, if_neg h]
    simp [hasKey, List.any_append]

theorem hasKey_setdefault_mono (o : List (String × Json)) (k k' : String)
    (v : Json) (h : hasKey o k = true) :
    hasKey (setdefault o k' v) k = true := by
  by_cases h' : hasKey o k' = true
  · rw [setdefault, if_pos h']; exact h
  · rw [setdefault, if_neg h']
    rw [hasKey, List.any_append]
    rw [hasKey] at h
    simp [h]

theorem hasKey_foldl_setdefault_mono (ds : List (String × Json)) :
    ∀ (o : List (String × Json)) (k : String), hasKey o k = true →
      hasKey (ds.foldl (fun acc kv => setdefault acc kv.1 kv.2) o) k = true := by
  induction ds with
  | nil => intro o k h; simpa using h
  | cons d t ih =>
    intro o k h
    simpa [List.foldl_cons] using ih _ k (hasKey_setdefault_mono o k d.1 d.2 h)

theorem hasKey_foldl_setdefault (ds : List (String × Json)) :
    ∀ (o : List (String × Json)) (kv : String × Json), kv ∈ ds →
      hasKey (ds.foldl (fun acc kv => setdefault acc kv.1 kv.2) o) kv.1 = true := by
  induction ds with
  | nil => intro o kv h; cases h
  | cons d t ih =>
    intro o kv h
    rcases List.mem_cons.mp h with rfl | hmem
    · simpa [List.foldl_cons] using
        hasKey_foldl_setdefault_mono t _ kv.1 (hasKey_setdefault_self o kv.1 kv.2)
    · simpa [List.foldl_cons] using ih _ kv hmem

theorem foldl_setdefault_complete (ds : List (String × Json)) :
    ∀ (o : List (String × Json)), (∀ kv ∈ ds, hasKey o kv.1 = true) →
      ds.foldl (fun acc kv => setdefault acc kv.1 kv.2) o = o := by
  induction ds with
  | nil => intro o _; rfl
  | cons d t ih =>
    intro o h
    have hd : setdefault o d.1 d.2 = o :=
      setdefault_of_hasKey o d.1 d.2 (h d (List.mem_cons_self d t))
    simp only [List.foldl_cons, hd]
    exact ih o (fun kv hm => h kv (List.mem_cons_of_mem d hm))

theorem hasKey_applyDefaults (o : List (String × Json)) (kv : String × Json)
    (hm : kv ∈ canonicalDefaults) : hasKey (applyDefaults o) kv.1 = true :=
  hasKey_foldl_setdefault canonicalDefaults o kv hm

theorem applyDefaults_of_complete (o : List (String × Json))
    (h : ∀ kv ∈ canonicalDefaults, hasKey o kv.1 = true) :
    applyDefaults o = o :=
  foldl_setdefault_complete canonicalDefaults o h

theorem hasKey_fallbackFields (t : String) (kv : String × Json)
    (hm : kv ∈ canonicalDefaults) : hasKey (fallbackFields t) kv.1 = true := by
  fin_cases hm <;> rfl

/-- Substring containment on strings (Python `pat in s`). -/
def strContains (s pat : String) : Bool :=
  containsSub pat.toList s.toList

theorem strContains_middle (a p b : String) :
    strContains (a ++ p ++ b) p = true := by
  have h := containsSub_of_middle p.toList a.toList b.toList
  simpa [strContains, String.toList, String.data_append, List.append_assoc]
    using h

/-! ## Claims about the platform detector and the downloader -/

/-- C4 counterexample: the claim reads "Instagram when it contains
`instagram.com`", but on a URL containing both an Instagram and a YouTube
fragment the detector returns `youtube`: the checks are ordered, not
independent. -/
theorem detect_platform_precedence_cex :
    containsLower "https://instagram.com/p/abc?from=youtube.com"
      "instagram.com" = true ∧
    detect_platform "https://instagram.com/p/abc?from=youtube.com" =
      "youtube" := by
  exact ⟨rfl, rfl⟩

/-- C4 (amended): the detector checks the host fragments case-insensitively
in a fixed order — YouTube (`youtube.com` or `youtu.be`) first, then
Instagram, then TikTok — and returns `unknown` exactly when none matches;
it is a total Lean function, hence pure with no failure modes. -/
theorem detect_platform_amended (url : String) :
    ((containsLower url "youtube.com" || containsLower url "youtu.be") = true →
      detect_platform url = "youtube") ∧
    ((containsLower url "youtube.com" || containsLower url "youtu.be") = false →
      containsLower url "instagram.com" = true →
      detect_platform url = "instagram") ∧
    ((containsLower url "youtube.com" || containsLower url "youtu.be") = false →
      containsLower url "instagram.com" = false →
      containsLower url "tiktok.com" = true →
      detect_platform url = "tiktok") ∧
    ((containsLower url "youtube.com" || containsLower url "youtu.be") = false →
      containsLower url "instagram.com" = false →
      containsLower url "tiktok.com" = false →
      detect_platform url = "unknown") := by
  refine ⟨?_, ?_, ?_, ?_⟩
  · intro h1
    rw [detect_platform, h1]
    rfl
  · intro h1 h2
    rw [detect_platform, h1, h2]
    rfl
  · intro h1 h2 h3
    rw [detect_platform, h1, h2, h3]
    rfl
  · intro h1 h2 h3
    rw [detect_platform, h1, h2, h3]
    rfl

/-- Witness for C4's theorem at a concrete URL. -/
theorem detect_platform_witness :
    detect_platform "https://YouTu.Be/dQw4w9WgXcQ" = "youtube" :=
  (detect_platform_amended "https://YouTu.Be/dQw4w9WgXcQ").1 (by rfl)

/-- C9: a primary-extractor exception whose string representation is empty
makes both truthiness guards fail, so `download_video` falls through and
returns `None` — no path, no raised error, and no fallback attempt. -/
theorem download_video_empty_error_returns_none (url : String)
    (fallback : Except String String) :
    download_video url (Except.error "") fallback =
      ⟨1, 0, PyOutcome.ret none⟩ := by
  simp [download_video]

/-- C2 counterexample: on an unknown-platform URL the downloader does not
fail with an unsupported-platform error — it runs the primary extraction
and returns its result. -/
theorem download_video_unknown_cex :
    detect_platform "https://example.com/video.mp4" = "unknown" ∧
    download_video "https://example.com/video.mp4"
      (Except.ok "/tmp/clip.mp4") (Except.error "apify unreachable") =
      ⟨1, 0, PyOutcome.ret (some "/tmp/clip.mp4")⟩ := by
  exact ⟨rfl, rfl⟩

/-- C2 (amended): for an unknown-platform URL the downloader still
attempts the primary extraction (best-effort policy); only the fallback is
platform-gated and is never invoked, and a primary failure with a
non-empty message raises a generic download error, not an
unsupported-platform one. -/
theorem download_video_unknown_amended (url : String)
    (primary fallback : Except String String)
    (h : detect_platform url = "unknown") :
    (download_video url primary fallback).primaryCalls = 1 ∧
    (download_video url primary fallback).fallbackCalls = 0 ∧
    (∀ p, primary = Except.ok p →
      (download_video url primary fallback).outcome = .ret (some p)) ∧
    (∀ e, primary = Except.error e → e ≠ "" →
      (download_video url primary fallback).outcome =
        .raise ("Error downloading video: " ++ e)) := by
  cases primary with
  | ok p => simp [download_video]
  | error e =>
    by_cases he : e = ""
    · subst he
      simp [download_video, h, supportedPlatforms]
    · simp [download_video, h, supportedPlatforms, he]

/-- Witness for C2's theorem at a concrete unknown-platform URL. -/
theorem download_video_unknown_witness :
    (download_video "https://example.com/v" (Except.error "boom")
        (Except.ok "/x")).outcome =
      .raise ("Error downloading video: " ++ "boom") :=
  (download_video_unknown_amended "https://example.com/v"
    (Except.error "boom") (Except.ok "/x") rfl).2.2.2 "boom" rfl (by decide)

/-- C3 counterexample: a primary failure whose exception message is empty
is not followed by any fallback attempt, even on a supported-platform URL
— the run ends with an implicit `None` instead of a combined error. -/
theorem download_video_fallback_cex :
    detect_platform "https://www.tiktok.com/@x/video/123" = "tiktok" ∧
    download_video "https://www.tiktok.com/@x/video/123"
      (Except.error "") (Except.error "apify boom") =
      ⟨1, 0, PyOutcome.ret none⟩ := by
  exact ⟨rfl, rfl⟩

/-- C3 (amended): for a supported-platform URL, when the primary extractor
fails with a non-empty message the fallback is attempted exactly once, and
if it also fails the single raised error combines, and hence contains,
both error strings. -/
theorem download_video_fallback_amended (url e : String)
    (hplat : detect_platform url ∈ supportedPlatforms)
    (he : e ≠ "") :
    (∀ fallback,
      (download_video url (Except.error e) fallback).fallbackCalls = 1) ∧
    (∀ ae, (download_video url (Except.error e) (Except.error ae)).outcome =
      .raise ("yt-dlp: " ++ e ++ " | Apify: " ++ ae)) ∧
    (∀ ae, strContains ("yt-dlp: " ++ e ++ " | Apify: " ++ ae) e = true ∧
      strContains ("yt-dlp: " ++ e ++ " | Apify: " ++ ae) ae = true) := by
  refine ⟨?_, ?_, ?_⟩
  · intro fallback
    cases fallback <;> simp [download_video, hplat, he]
  · intro ae
    simp [download_video, hplat, he]
  · intro ae
    constructor
    · have h := strContains_middle "yt-dlp: " e (" | Apify: " ++ ae)
      simpa [String.append_assoc] using h
    · have h := strContains_middle ("yt-dlp: " ++ e ++ " | Apify: ") ae ""
      simpa [String.append_assoc] using h

/-- Witness for C3's theorem at the spec's TikTok scenario URL. -/
theorem download_video_fallback_witness :
    (download_video "https://www.tiktok.com/@x/video/123"
        (Except.error "network down") (Except.error "apify busy")).outcome =
      .raise ("yt-dlp: " ++ "network down" ++ " | Apify: " ++ "apify busy") :=
  (download_video_fallback_amended "https://www.tiktok.com/@x/video/123"
    "network down" (by decide) (by decide)).2.1 "apify busy"

/-! ## Claims about the frame sampler -/

/-- `Rat.floor` agrees with the floor of ℚ's `FloorRing` instance. -/
theorem ratFloorEq (q : ℚ) : Rat.floor q = ⌊q⌋ := rfl

/-- C5 counterexample: the code computes the stride with `int()`
truncation, not rounding — at fps 0.9 and a 2-second interval the code
stride is 1 while round(fps × interval) is 2. -/
theorem frameStride_round_cex :
    frameStride (9/10 : ℚ) 2 = 1 ∧ round ((9/10 : ℚ) * 2) = 2 := by
  constructor
  · norm_num [frameStride, effectiveFps, ratFloorEq]
  · norm_num [round_eq]

/-- C5 (amended): `extract_frames` never returns more than 30 frames
regardless of the input video length, and the frame-index stride is the
integer truncation of fps × interval_seconds — which for frame rate 30
and a 2-second interval is 60 (agreeing there with rounding, since the
product is integral). -/
theorem extract_frames_cap_amended {α β : Type} (conv : α → β) (path : String)
    (openedOk : Bool) (fps : ℚ) (video : List α) (i : ℕ) (l : List β)
    (h : extract_frames conv path openedOk fps video i = Except.ok l) :
    l.length ≤ 30 ∧ frameStride 30 2 = 60 := by
  refine ⟨?_, by norm_num [frameStride, effectiveFps, ratFloorEq]; try decide⟩
  cases openedOk with
  | false => rw [extract_frames] at h; simp at h
  | true =>
    rw [extract_frames] at h
    simp only [Bool.not_true, Bool.false_eq_true, if_false] at h
    exact framesLoop_length_le conv (frameStride fps i) 30 video 0 []
      (by simp) l h

/-- Witness for C5's theorem: a 3-frame video at fps 30 yields one kept
frame, within the cap. -/
theorem extract_frames_cap_witness :
    extract_frames (fun n : ℕ => n) "demo.mp4" true 30 [0, 1, 2] 2 =
      Except.ok [0] ∧ ([0] : List ℕ).length ≤ 30 ∧ frameStride 30 2 = 60 := by
  have h1 : frameStride 30 2 = 60 := by
    norm_num [frameStride, effectiveFps, ratFloorEq]; try decide
  have hev : extract_frames (fun n : ℕ => n) "demo.mp4" true 30 [0, 1, 2] 2 =
      Except.ok [0] := by
    simp [extract_frames, h1, framesLoop]
  have h := extract_frames_cap_amended (fun n : ℕ => n) "demo.mp4" true 30
    [0, 1, 2] 2 [0] hev
  exact ⟨hev, h.1, h.2⟩

/-- C7: a non-positive reported frame rate (zero or negative, as with
corrupt metadata) is replaced by the 30 fps default, the stride is
computed from that default (30 × interval), and extraction succeeds for
any positive interval — no failure, no division by zero. -/
theorem extract_frames_fps_default {α β : Type} (conv : α → β) (path : String)
    (fps : ℚ) (hfps : fps ≤ 0) (video : List α) (i : ℕ) (hi : 1 ≤ i) :
    effectiveFps fps = 30 ∧ frameStride fps i = 30 * i ∧
    ∃ l, extract_frames conv path true fps video i = Except.ok l := by
  have heff : effectiveFps fps = 30 := if_pos hfps
  have hstride : frameStride fps i = 30 * i := by
    rw [frameStride, heff, ratFloorEq]
    have hc : (30 : ℚ) * (i : ℚ) = ((30 * i : ℕ) : ℚ) := by push_cast; ring
    rw [hc, Int.floor_natCast]
    omega
  have hne : frameStride fps i ≠ 0 := by rw [hstride]; omega
  refine ⟨heff, hstride, ?_⟩
  have hok := framesLoop_isOk conv (frameStride fps i) 30 hne video 0 []
  simpa [extract_frames] using hok

/-- Witness for C7's theorem at fps 0 (the corrupt-metadata scenario). -/
theorem extract_frames_fps_default_witness :
    effectiveFps 0 = 30 ∧ frameStride 0 2 = 60 ∧
    ∃ l, extract_frames (fun n : ℕ => n) "zero-fps.mp4" true 0 [5] 2 =
      Except.ok l := by
  have h := extract_frames_fps_default (fun n : ℕ => n) "zero-fps.mp4" 0
    (by norm_num) [5] 2 (by norm_num)
  exact ⟨h.1, by simpa using h.2.1, h.2.2⟩

/-- C10: a positive frame rate small enough that fps × interval truncates
to zero gives stride 0, and the first decoded frame then raises
`ZeroDivisionError` at `frame_count % frame_interval` — the non-positive
default only guards fps ≤ 0, not a zero stride. -/
theorem extract_frames_zero_stride {α β : Type} (conv : α → β) (path : String)
    (fps : ℚ) (h0 : 0 < fps) (h1 : fps * 2 < 1) (f : α) (rest : List α) :
    frameStride fps 2 = 0 ∧
    extract_frames conv path true fps (f :: rest) 2 =
      Except.error zeroDivMsg := by
  have heff : effectiveFps fps = fps := if_neg (not_le.mpr h0)
  have hstride : frameStride fps 2 = 0 := by
    rw [frameStride, heff, ratFloorEq]
    have hcast : ((2 : ℕ) : ℚ) = 2 := by norm_num
    have hfl : ⌊fps * ((2 : ℕ) : ℚ)⌋ = 0 := by
      rw [Int.floor_eq_zero_iff, Set.mem_Ico, hcast]
      exact ⟨le_of_lt (mul_pos h0 (by norm_num)), h1⟩
    rw [hfl]
    rfl
  refine ⟨hstride, ?_⟩
  simp [extract_frames, hstride, framesLoop]

/-- Witness for C10's theorem at the claim's example rate fps = 0.4. -/
theorem extract_frames_zero_stride_witness :
    extract_frames (fun n : ℕ => n) "slow.mp4" true (2/5) [7] 2 =
      Except.error zeroDivMsg :=
  (extract_frames_zero_stride (fun n : ℕ => n) "slow.mp4" (2/5)
    (by norm_num) (by norm_num) 7 []).2

/-! ## Claims about the response parser -/

/-- C1 counterexample: (i) a fenced block decoding to a non-object JSON
value (`5`) makes `parse_recipe_response` raise — `.setdefault` on a
non-dict is an uncaught `AttributeError` — instead of returning a draft;
(ii) a canonical field present with value `null` is passed through as
`null` rather than receiving its type-correct default. -/
theorem parse_recipe_response_total_cex :
    parse_recipe_response "```json\n5\n```" = Except.error "AttributeError" ∧
    parse_recipe_response "```\x7b\"title\": null\x7d```" =
      Except.ok (Json.obj
        [("title", Json.null), ("description", Json.str ""),
         ("prepTime", Json.num 15), ("cookTime", Json.num 30),
         ("servings", Json.num 4), ("difficulty", Json.str "Medium"),
         ("ingredients", Json.arr []), ("steps", Json.arr []),
         ("equipment", Json.arr []), ("tips", Json.arr []),
         ("nutritionPerServing",
           Json.obj [("calories", Json.num 0), ("protein", Json.num 0),
                     ("carbs", Json.num 0), ("fat", Json.num 0)]),
         ("tags", Json.arr [])]) := by
  exact ⟨rfl, rfl⟩

/-- C1 (amended): whenever `parse_recipe_response` returns normally, the
result is an object carrying every canonical RecipeDraft field (defaults
fill the absent ones; present fields are passed through unchanged, nulls
included); the only way it raises is a successfully decoded candidate
that is not a JSON object. -/
theorem parse_recipe_response_fields_amended (t : String) :
    (∀ r, parse_recipe_response t = Except.ok r →
      ∃ o, r = Json.obj o ∧ ∀ kv ∈ canonicalDefaults, hasKey o kv.1 = true) ∧
    (∀ e, parse_recipe_response t = Except.error e →
      ∃ s v, extractCandidate t = some s ∧ jsonParse s = some v ∧
        ∀ o, v ≠ Json.obj o) := by
  constructor
  · intro r hr
    rw [parse_recipe_response] at hr
    split at hr
    · injection hr with hr'
      exact ⟨fallbackFields t, hr'.symm,
        fun kv hm => hasKey_fallbackFields t kv hm⟩
    · split at hr
      · injection hr with hr'
        exact ⟨fallbackFields t, hr'.symm,
          fun kv hm => hasKey_fallbackFields t kv hm⟩
      · rename_i o hj
        injection hr with hr'
        exact ⟨applyDefaults o, hr'.symm,
          fun kv hm => hasKey_applyDefaults o kv hm⟩
      · exact Except.noConfusion hr
  · intro e he
    rw [parse_recipe_response] at he
    split at he
    · exact Except.noConfusion he
    · rename_i cand hcand
      split at he
      · exact Except.noConfusion he
      · exact Except.noConfusion he
      · rename_i v hne hj
        exact ⟨cand, v, hcand, hj, fun o h => hne o h⟩

/-- Witness for C1's theorem: a reply with no JSON at all yields the
fully-populated synthesized draft. -/
theorem parse_recipe_response_fields_witness :
    ∃ o, fallbackDraft "no recipe" = Json.obj o ∧
      ∀ kv ∈ canonicalDefaults, hasKey o kv.1 = true :=
  (parse_recipe_response_fields_amended "no recipe").1
    (fallbackDraft "no recipe") (by rfl)

/-- C6: a text whose fenced block decodes to an object that already
carries every canonical RecipeDraft field parses to exactly that object —
every `setdefault` is a no-op, so the draft equals the input
field-for-field with no default substituted. -/
theorem parse_recipe_response_roundtrip (t s : String)
    (o : List (String × Json))
    (hf : extractFenced t = some s)
    (hj : jsonParse s = some (Json.obj o))
    (hall : ∀ kv ∈ canonicalDefaults, hasKey o kv.1 = true) :
    parse_recipe_response t = Except.ok (Json.obj o) := by
  simp only [parse_recipe_response, extractCandidate, hf, hj]
  rw [applyDefaults_of_complete o hall]

/-- Inner JSON of the round-trip witness: a complete canonical recipe. -/
def roundtripJson : String :=
  "\x7b\"title\":\"Pasta\",\"description\":\"d\",\"prepTime\":1,\"cookTime\":2,\"servings\":3,\"difficulty\":\"Easy\",\"ingredients\":[\x7b\"name\":\"egg\",\"amount\":\"2\"\x7d],\"steps\":[\"s1\"],\"equipment\":[\"pan\"],\"tips\":[\"t\"],\"nutritionPerServing\":\x7b\"calories\":1,\"protein\":2,\"carbs\":3,\"fat\":4\x7d,\"tags\":[\"x\"]\x7d"

/-- A fenced AI reply carrying `roundtripJson`. -/
def roundtripText : String := "```json\n" ++ roundtripJson ++ "\n```"

/-- The decoded object of `roundtripJson`. -/
def roundtripFields : List (String × Json) :=
  [("title", Json.str "Pasta"),
   ("description", Json.str "d"),
   ("prepTime", Json.num 1),
   ("cookTime", Json.num 2),
   ("servings", Json.num 3),
   ("difficulty", Json.str "Easy"),
   ("ingredients",
     Json.arr [Json.obj [("name", Json.str "egg"), ("amount", Json.str "2")]]),
   ("steps", Json.arr [Json.str "s1"]),
   ("equipment", Json.arr [Json.str "pan"]),
   ("tips", Json.arr [Json.str "t"]),
   ("nutritionPerServing",
     Json.obj [("calories", Json.num 1), ("protein", Json.num 2),
               ("carbs", Json.num 3), ("fat", Json.num 4)]),
   ("tags", Json.arr [Json.str "x"])]

/-- Witness for C6's theorem: the concrete fenced complete recipe parses
to itself. -/
theorem parse_recipe_response_roundtrip_witness :
    parse_recipe_response roundtripText =
      Except.ok (Json.obj roundtripFields) :=
  parse_recipe_response_roundtrip roundtripText roundtripJson
    roundtripFields rfl rfl (by decide)

/-! ## Claims about the analyze endpoint -/

/-- C8 counterexample: a failure that is neither bad input, nor a download
failure, nor an AI-stage error — `get_gemini_client` raising `ValueError`
for a missing API key — is mapped by the handler's `except ValueError`
clause to status 400, where the claim's mapping sends unexpected failures
to 500. -/
theorem analyze_video_valueerror_cex :
    analyze_video true true
      (Except.error ⟨true, "GEMINI_API_KEY not configured"⟩)
      "https://youtube.com/watch?v=1" "direct"
      (Except.ok "/tmp/v.mp4") (Except.ok "/tmp/v.mp4")
      (Except.ok [1]) (Except.ok "text") =
      (400, RespBody.err "GEMINI_API_KEY not configured") := by
  exact rfl

/-- C8 (amended): the analyze endpoint maps missing input and download
failures to 400 `{error}`; an AI-stage error whose message contains
`429` or `quota` (case-insensitively) to 429; any other AI-stage error to
500; an unexpected failure to 500 unless it raises `ValueError` (such as
missing API-key configuration), which the dedicated clause maps to 400;
and on success it returns 200 `{success: true, recipe}` — every response
body is either a single error string or a full recipe, never both. -/
theorem analyze_video_status_amended (clientInit : Except PyExc Unit)
    (url method : String) (primary fallback : Except String String)
    (frames : Except String (List Nat)) (aiText : Except String String) :
    (∀ hasBody hasUrl : Bool, (!hasBody || !hasUrl) = true →
      analyze_video hasBody hasUrl clientInit url method primary fallback
        frames aiText = (400, RespBody.err "Video URL is required")) ∧
    (∀ exc : PyExc,
      analyze_video true true (Except.error exc) url method primary fallback
        frames aiText =
      if exc.isValueError then (400, RespBody.err exc.msg)
      else (500, RespBody.err "An unexpected error occurred")) ∧
    (∀ e, (download_video url primary fallback).outcome = PyOutcome.raise e →
      analyze_video true true (Except.ok ()) url method primary fallback
        frames aiText =
        (400, RespBody.err ("Failed to download video: " ++ e))) ∧
    (∀ p e, (download_video url primary fallback).outcome = PyOutcome.ret p →
      (method = "frames" → ∃ f fs, frames = Except.ok (f :: fs)) →
      aiText = Except.error e →
      analyze_video true true (Except.ok ()) url method primary fallback
        frames aiText =
        if rateLimited e then
          (429, RespBody.err "Rate limit exceeded. Please try again later.")
        else (500, RespBody.err ("Failed to analyze video: " ++ e))) ∧
    (∀ p txt recipe,
      (download_video url primary fallback).outcome = PyOutcome.ret p →
      (method = "frames" → ∃ f fs, frames = Except.ok (f :: fs)) →
      aiText = Except.ok txt → parse_recipe_response txt = Except.ok recipe →
      analyze_video true true (Except.ok ()) url method primary fallback
        frames aiText = (200, RespBody.success recipe)) ∧
    (∀ (hasBody hasUrl : Bool) (ci : Except PyExc Unit),
      (∃ m, (analyze_video hasBody hasUrl ci url method primary fallback
        frames aiText).2 = RespBody.err m) ∨
      (∃ r, analyze_video hasBody hasUrl ci url method primary fallback
        frames aiText = (200, RespBody.success r))) := by
  refine ⟨?_, ?_, ?_, ?_, ?_, ?_⟩
  · intro hasBody hasUrl h
    simp [analyze_video, h]
  · intro exc
    cases hexc : exc.isValueError <;> simp [analyze_video, hexc]
  · intro e h
    simp [analyze_video, h]
  · intro p e hdl hfr hai
    by_cases hm : method = "frames"
    · obtain ⟨f, fs, hf⟩ := hfr hm
      simp [analyze_video, hdl, hm, hf, hai, runAiStage, aiFailureResp]
    · simp [analyze_video, hdl, hm, hai, runAiStage, aiFailureResp]
  · intro p txt recipe hdl hfr hai hparse
    by_cases hm : method = "frames"
    · obtain ⟨f, fs, hf⟩ := hfr hm
      simp [analyze_video, hdl, hm, hf, hai, runAiStage, hparse]
    · simp [analyze_video, hdl, hm, hai, runAiStage, hparse]
  · intro hasBody hasUrl ci
    unfold analyze_video runAiStage aiFailureResp
    repeat' split
    all_goals
      first
        | exact Or.inl ⟨_, rfl⟩
        | exact Or.inr ⟨_, rfl⟩

/-- Witness for C8's theorem: a rate-limited AI failure on the direct
method maps to 429. -/
theorem analyze_video_status_witness :
    analyze_video true true (Except.ok ()) "https://youtube.com/watch?v=1"
      "direct" (Except.ok "/tmp/v.mp4") (Except.ok "/f") (Except.ok [1])
      (Except.error "429 Too Many Requests") =
      (429, RespBody.err "Rate limit exceeded. Please try again later.") := by
  have h := (analyze_video_status_amended (Except.ok ())
    "https://youtube.com/watch?v=1" "direct" (Except.ok "/tmp/v.mp4")
    (Except.ok "/f") (Except.ok [1])
    (Except.error "429 Too Many Requests")).2.2.2.1
    (some "/tmp/v.mp4") "429 Too Many Requests" rfl
    (fun hm => absurd hm (by decide)) rfl
  simpa using h

end VideoRecipe
